import Mathlib

/-!
# Joystick control loop (`analogico.c`)

A shallow embedding of the button handler, the brightness mapper, the cursor
mapper and the light controller of `src/analogico/analogico.c`, followed by the
properties proved about them.

Modelling conventions.

* `uint32_t` values are natural numbers below `2 ^ 32`; the unsigned
  subtraction of the debounce test is written out with its wraparound.
* The peripherals the code writes to are fields of `State`: the two PWM
  compare levels set by `pwm_set_gpio_level`, the output latch of the green LED
  driven by `gpio_put`, and the lines written by `printf`.
* `double` and `float` values are rationals.  In `adcToPWM` every intermediate
  value is `k / 2048` or `255 * k / 2048` with `k ≤ 65535`, which binary64
  represents exactly, so the rational value is the computed value.  In
  `updateCursorPosition` the single-precision operations do round; the model
  takes the rounding function as a parameter and applies it after every
  operation, `id` giving exact arithmetic.
-/

namespace Analogico

/-! ## Pins and constants -/

/-- Pin of the joystick push button (`#define BTN_JOYSTICK 22`). -/
def BTN_JOYSTICK : Nat := 22

/-- Pin of the auxiliary push button (`#define BTN_AUX 5`). -/
def BTN_AUX : Nat := 5

/-- Number of values of a `uint32_t`. -/
def U32 : Nat := 4294967296

/-! ## State -/

/-- The globals of the program together with the peripheral registers that the
modelled functions write. -/
structure State where
  /-- Global `lastPressTime` (`uint32_t`). -/
  lastPressTime : Nat
  /-- Global `pwmActive`. -/
  pwmActive : Bool
  /-- Global `borderVisible`. -/
  borderVisible : Bool
  /-- Output latch of pin `LED_G`, read by `gpio_get` and set by `gpio_put`. -/
  ledG : Bool
  /-- PWM level of pin `LED_R`, set by `pwm_set_gpio_level (LED_R, _)`. -/
  levelR : Nat
  /-- PWM level of pin `LED_B`, set by `pwm_set_gpio_level (LED_B, _)`. -/
  levelB : Nat
  /-- Pin numbers printed by `printf`, oldest first. -/
  printed : List Nat
  deriving DecidableEq

/-- State at the start of `main`: the initialisers of the globals, with both
PWM levels at their reset value and nothing printed. -/
def initialState : State :=
  { lastPressTime := 0, pwmActive := true, borderVisible := false,
    ledG := false, levelR := 0, levelB := 0, printed := [] }

/-! ## Button handler -/

/-- Subtraction of two `uint32_t` values, as C performs it: modulo `2 ^ 32`. -/
def subU32 (a b : Nat) : Nat := (a + U32 - b) % U32

/-- Body of `handleButtonPress (gpio, events)`.  The argument `now` is the value of
`to_us_since_boot (get_absolute_time ())`, a 64-bit microsecond count; the
assignment to the `uint32_t` local `currentTime` keeps its low 32 bits.
The parameter `events` is not used by the C function and is left out. -/
def handleButtonPress (gpio now : Nat) (s : State) : State :=
  let s := { s with printed := s.printed ++ [gpio] }
  let currentTime := now % U32
  if subU32 currentTime s.lastPressTime > 300000 then
    let s := { s with lastPressTime := currentTime }
    let s :=
      if gpio = BTN_JOYSTICK then
        { s with ledG := !s.ledG, borderVisible := !s.borderVisible }
      else if gpio = BTN_AUX then
        { s with pwmActive := !s.pwmActive }
      else s
    if !s.pwmActive then
      { s with levelR := 0, levelB := 0 }
    else s
  else s

/-! ## Brightness mapper -/

/-- Conversion of a `double` to an integer type: the fractional part is
discarded (truncation toward zero). -/
def truncate (q : ℚ) : Int := if 0 ≤ q then ⌊q⌋ else -⌊-q⌋

/-- Conversion of a `double` to `uint8_t`.  C defines it only when the truncated
value fits in `[0, 255]`; outside that range the model wraps modulo 256. -/
def toUInt8 (q : ℚ) : Nat := (truncate q % 256).toNat

/-- The `double` expression of `adcToPWM`, before the cast:
`(abs (2048 - adcValue) / 2048.0) * 255`.  The difference is an `int`. -/
def adcToPWMValue (adcValue : Nat) : ℚ :=
  ((Int.natAbs (2048 - (adcValue : Int)) : ℚ) / 2048) * 255

/-- Function `adcToPWM`: the value above cast to `uint8_t`. -/
def adcToPWM (adcValue : Nat) : Nat := toUInt8 (adcToPWMValue adcValue)

/-! ## Cursor mapper -/

/-- Function `updateCursorPosition`; the pair returned is `(*xPos, *yPos)`.
Every single-precision operation is the exact operation followed by `rnd`. -/
def updateCursorPosition (rnd : ℚ → ℚ) (adcX adcY : Nat) : ℚ × ℚ :=
  let tempX := rnd (64 - rnd (rnd ((adcX : ℚ) / 4095) * 64))
  let tempY := rnd (rnd ((adcY : ℚ) / 4095) * 128)
  (if tempX < 0 then 0 else if tempX > 56 then 56 else tempX,
   if tempY < 0 then 0 else if tempY > 120 then 120 else tempY)

/-! ## Light controller -/

/-- Function `updateLEDs`, one `pwm_set_gpio_level` call per line. -/
def updateLEDs (adcX adcY : Nat) (s : State) : State :=
  if s.pwmActive then
    let pwmR := adcToPWM adcY
    let pwmB := adcToPWM adcX
    let s := { s with levelR := pwmR }
    let s := { s with levelB := pwmB }
    let s := if adcX > 2000 ∧ adcX < 2100 then { s with levelR := 0 } else s
    let s := if adcY > 2000 ∧ adcY < 2100 then { s with levelB := 0 } else s
    s
  else
    let s := { s with levelR := 0 }
    let s := { s with levelB := 0 }
    s

/-! ## Runs of the program -/

/-- One atomic step of a run: a button interrupt or one light update. -/
inductive Call where
  /-- Call `handleButtonPress` for pin `gpio` at clock value `now`. -/
  | button (gpio now : Nat)
  /-- Call `updateLEDs` with the samples `adcX` and `adcY`. -/
  | leds (adcX adcY : Nat)
  deriving DecidableEq

/-- Effect of one call on the state. -/
def Call.apply : Call → State → State
  | .button gpio now, s => handleButtonPress gpio now s
  | .leds adcX adcY, s => updateLEDs adcX adcY s

/-- State after the calls of a list, taken in order. -/
def run (calls : List Call) (s : State) : State :=
  calls.foldl (fun st c => c.apply st) s

/-! ## Reference definitions from the specification -/

/-- Brightness as the specification words it:
`round (|2048 - adc| / 2048 * 255)`, rounded to the nearest integer. -/
def brightnessSpec (adc : Nat) : Int :=
  round ((|(2048 : ℚ) - adc| / 2048) * 255)

/-- Clamp of `v` to `[lo, hi]`. -/
def clamp (v lo hi : ℚ) : ℚ := max lo (min v hi)

/-- Cursor position as the specification words it: `rawX = 64 - (adcX/4095)*64`
and `rawY = (adcY/4095)*128`, clamped to `[0,56]` and `[0,120]`. -/
def cursorMapperSpec (adcX adcY : Nat) : ℚ × ℚ :=
  (clamp (64 - ((adcX : ℚ) / 4095) * 64) 0 56, clamp (((adcY : ℚ) / 4095) * 128) 0 120)

/-! ## Sample states -/

/-- A state with the lights enabled and both PWM channels lit. -/
def litState : State := { initialState with levelR := 200, levelB := 100 }

/-- A state with the lights disabled in which both PWM levels are non-zero. -/
def offLitState : State :=
  { initialState with pwmActive := false, levelR := 7, levelB := 9 }

/-- A state whose last accepted press lies 100 microseconds before the wrap of
the 32-bit counter. -/
def wrapState : State := { initialState with lastPressTime := 4294967196 }

/-! ## Lemmas on the button handler -/

/-- Adding `d` microseconds to a 32-bit counter and subtracting the old value
modulo `2 ^ 32` gives `d` back, also across a wrap. -/
theorem subU32_add (t d : Nat) (ht : t < U32) (hd : d < U32) :
    subU32 ((t + d) % U32) t = d := by
  simp only [subU32, U32] at *
  omega

/-- A suppressed event changes nothing but the console output. -/
theorem handleButtonPress_of_le (gpio now : Nat) (s : State)
    (h : subU32 (now % U32) s.lastPressTime ≤ 300000) :
    handleButtonPress gpio now s = { s with printed := s.printed ++ [gpio] } := by
  have h' : ¬ subU32 (now % U32) s.lastPressTime > 300000 := by omega
  simp only [handleButtonPress, h', if_false]

/-- State after an accepted event, field by field. -/
theorem handleButtonPress_of_gt (gpio now : Nat) (s : State)
    (h : subU32 (now % U32) s.lastPressTime > 300000) :
    handleButtonPress gpio now s =
      { lastPressTime := now % U32,
        pwmActive := if gpio = BTN_AUX then !s.pwmActive else s.pwmActive,
        borderVisible := if gpio = BTN_JOYSTICK then !s.borderVisible else s.borderVisible,
        ledG := if gpio = BTN_JOYSTICK then !s.ledG else s.ledG,
        levelR := if (if gpio = BTN_AUX then !s.pwmActive else s.pwmActive) then s.levelR else 0,
        levelB := if (if gpio = BTN_AUX then !s.pwmActive else s.pwmActive) then s.levelB else 0,
        printed := s.printed ++ [gpio] } := by
  simp only [handleButtonPress, h, if_true, BTN_JOYSTICK, BTN_AUX]
  by_cases h22 : gpio = 22
  · subst h22
    cases hp : s.pwmActive <;> simp [hp]
  · by_cases h5 : gpio = 5
    · subst h5
      cases hp : s.pwmActive <;> simp [hp]
    · cases hp : s.pwmActive <;> simp [h22, h5, hp]

/-! ## Lemmas on the brightness mapper -/

/-- The value computed by `adcToPWM` before the cast, as one fraction. -/
theorem adcToPWMValue_eq_div (adc : Nat) :
    adcToPWMValue adc
      = ((255 * Int.natAbs (2048 - (adc : Int)) : Nat) : ℚ) / ((2048 : Nat) : ℚ) := by
  unfold adcToPWMValue
  push_cast
  ring

/-- The value computed by `adcToPWM` before the cast is never negative. -/
theorem adcToPWMValue_nonneg (adc : Nat) : 0 ≤ adcToPWMValue adc := by
  unfold adcToPWMValue
  positivity

/-- Truncation of the value computed by `adcToPWM` is an integer division. -/
theorem truncate_adcToPWMValue (adc : Nat) :
    truncate (adcToPWMValue adc)
      = ((255 * Int.natAbs (2048 - (adc : Int)) / 2048 : Nat) : Int) := by
  unfold truncate
  rw [if_pos (adcToPWMValue_nonneg adc), adcToPWMValue_eq_div, Rat.floor_natCast_div_natCast]
  norm_cast

/-- On 12-bit samples `adcToPWM` is the integer quotient `255 * |2048 - adc| / 2048`. -/
theorem adcToPWM_eq_div (adc : Nat) (h : adc ≤ 4095) :
    adcToPWM adc = 255 * Int.natAbs (2048 - (adc : Int)) / 2048 := by
  unfold adcToPWM toUInt8
  rw [truncate_adcToPWMValue]
  omega

/-- The specification's rounded brightness at sample 2043 is 1. -/
theorem brightnessSpec_2043 : brightnessSpec 2043 = 1 := by
  unfold brightnessSpec
  rw [round_eq, Int.floor_eq_iff]
  norm_num [abs_of_nonneg]

/-! ## Lemmas on the lights-off property -/

/-- The lights-off property of a single state. -/
theorem lightsOff_handleButtonPress (gpio now : Nat) (s : State)
    (h : s.pwmActive = false → s.levelR = 0 ∧ s.levelB = 0) :
    (handleButtonPress gpio now s).pwmActive = false →
      (handleButtonPress gpio now s).levelR = 0 ∧ (handleButtonPress gpio now s).levelB = 0 := by
  by_cases hacc : subU32 (now % U32) s.lastPressTime > 300000
  · rw [handleButtonPress_of_gt gpio now s hacc]
    intro hp
    simp only at hp
    simp [hp]
  · rw [handleButtonPress_of_le gpio now s (by omega)]
    exact h

/-- The light update establishes the lights-off property. -/
theorem lightsOff_updateLEDs (adcX adcY : Nat) (s : State) :
    (updateLEDs adcX adcY s).pwmActive = false →
      (updateLEDs adcX adcY s).levelR = 0 ∧ (updateLEDs adcX adcY s).levelB = 0 := by
  unfold updateLEDs
  cases hp : s.pwmActive
  · simp
  · simp only [if_true]
    split_ifs <;> simp [hp]

/-- The lights-off property is kept along any run. -/
theorem lightsOff_run (calls : List Call) (s : State)
    (h : s.pwmActive = false → s.levelR = 0 ∧ s.levelB = 0) :
    (run calls s).pwmActive = false → (run calls s).levelR = 0 ∧ (run calls s).levelB = 0 := by
  induction calls generalizing s with
  | nil => exact h
  | cons c cs ih =>
    have hstep : (c.apply s).pwmActive = false →
        (c.apply s).levelR = 0 ∧ (c.apply s).levelB = 0 := by
      cases c with
      | button gpio now => exact lightsOff_handleButtonPress gpio now s h
      | leds adcX adcY => exact lightsOff_updateLEDs adcX adcY s
    exact ih (c.apply s) hstep

/-! ## Properties of the button handler -/

/-- C1. Debounce threshold, shared by both buttons.  Let an event at the 32-bit
timestamp `t` be accepted, so that `lastPressTime` becomes `t`.  Then, whatever the
pin `g2` of the next event (the same button or the other one): at `t + 299999` and
at `t + 100000` it is suppressed, leaving `lastPressTime`, `pwmActive` and
`borderVisible` unchanged; at `t + 300001` it is accepted, `lastPressTime` becomes
that timestamp (a 32-bit counter value, equal to `t + 300001` unless the counter
wraps) and the toggle of the button is applied. -/
theorem C1_debounce_threshold_shared (s : State) (g1 g2 t : Nat) (ht : t < U32)
    (hacc : subU32 t s.lastPressTime > 300000) :
    (handleButtonPress g1 t s).lastPressTime = t ∧
    (∀ d, d = 299999 ∨ d = 100000 →
      (handleButtonPress g2 (t + d) (handleButtonPress g1 t s)).lastPressTime = t ∧
      (handleButtonPress g2 (t + d) (handleButtonPress g1 t s)).pwmActive
        = (handleButtonPress g1 t s).pwmActive ∧
      (handleButtonPress g2 (t + d) (handleButtonPress g1 t s)).borderVisible
        = (handleButtonPress g1 t s).borderVisible) ∧
    (handleButtonPress g2 (t + 300001) (handleButtonPress g1 t s)).lastPressTime
      = (t + 300001) % U32 ∧
    (t + 300001 < U32 →
      (handleButtonPress g2 (t + 300001) (handleButtonPress g1 t s)).lastPressTime
        = t + 300001) ∧
    (g2 = BTN_JOYSTICK →
      (handleButtonPress g2 (t + 300001) (handleButtonPress g1 t s)).borderVisible
        = !(handleButtonPress g1 t s).borderVisible ∧
      (handleButtonPress g2 (t + 300001) (handleButtonPress g1 t s)).pwmActive
        = (handleButtonPress g1 t s).pwmActive) ∧
    (g2 = BTN_AUX →
      (handleButtonPress g2 (t + 300001) (handleButtonPress g1 t s)).pwmActive
        = !(handleButtonPress g1 t s).pwmActive ∧
      (handleButtonPress g2 (t + 300001) (handleButtonPress g1 t s)).borderVisible
        = (handleButtonPress g1 t s).borderVisible) := by
  have htm : t % U32 = t := Nat.mod_eq_of_lt ht
  have h1 : (handleButtonPress g1 t s).lastPressTime = t := by
    rw [handleButtonPress_of_gt g1 t s (by rw [htm]; exact hacc)]
    exact htm
  have hsup : ∀ d, d = 299999 ∨ d = 100000 →
      handleButtonPress g2 (t + d) (handleButtonPress g1 t s)
        = { handleButtonPress g1 t s with
            printed := (handleButtonPress g1 t s).printed ++ [g2] } := by
    intro d hd
    apply handleButtonPress_of_le
    rw [h1, subU32_add t d ht (by rcases hd with hd | hd <;> simp [hd, U32])]
    omega
  have h2 : subU32 ((t + 300001) % U32) (handleButtonPress g1 t s).lastPressTime > 300000 := by
    rw [h1, subU32_add t 300001 ht (by simp [U32])]
    omega
  have hacc2 := handleButtonPress_of_gt g2 (t + 300001) (handleButtonPress g1 t s) h2
  refine ⟨h1, ?_, ?_, ?_, ?_, ?_⟩
  · intro d hd
    rw [hsup d hd]
    exact ⟨h1, rfl, rfl⟩
  · rw [hacc2]
  · intro hlt
    rw [hacc2]
    exact Nat.mod_eq_of_lt hlt
  · intro hg
    rw [hacc2]
    subst hg
    simp [BTN_JOYSTICK, BTN_AUX]
  · intro hg
    rw [hacc2]
    subst hg
    simp [BTN_JOYSTICK, BTN_AUX]

/-- Instance of C1: after power-up a press of the joystick button at 400000 is
accepted; a press of the other button 100000 microseconds later changes nothing. -/
theorem C1_debounce_threshold_shared_witness :
    400000 < U32 ∧ subU32 400000 initialState.lastPressTime > 300000 ∧
    (handleButtonPress BTN_AUX (400000 + 100000)
      (handleButtonPress BTN_JOYSTICK 400000 initialState)).pwmActive
        = (handleButtonPress BTN_JOYSTICK 400000 initialState).pwmActive :=
  ⟨by decide, by decide,
    ((C1_debounce_threshold_shared initialState BTN_JOYSTICK BTN_AUX 400000
      (by decide) (by decide)).2.1 100000 (Or.inr rfl)).2.1⟩

/-- C2. Timestamp wraparound.  For 32-bit values of `lastPressTime` and
`currentTime`, the interval that `handleButtonPress` compares with 300000 is
`(currentTime - lastPressTime) mod 2 ^ 32`: the event is suppressed when that
value is at most 300000 and accepted when it is larger.  With
`lastPressTime = 2 ^ 32 - 100` and `currentTime = 50` the interval is 150 and the
event is suppressed. -/
theorem C2_elapsed_wraparound (s : State) (gpio currentTime : Nat)
    (hl : s.lastPressTime < U32) (hc : currentTime < U32) :
    ((subU32 (currentTime % U32) s.lastPressTime : Nat) : Int)
      = ((currentTime : Int) - (s.lastPressTime : Int)) % (2 : Int) ^ 32 ∧
    (((currentTime : Int) - (s.lastPressTime : Int)) % (2 : Int) ^ 32 ≤ 300000 →
      handleButtonPress gpio currentTime s = { s with printed := s.printed ++ [gpio] }) ∧
    (((currentTime : Int) - (s.lastPressTime : Int)) % (2 : Int) ^ 32 > 300000 →
      (handleButtonPress gpio currentTime s).lastPressTime = currentTime) ∧
    (s.lastPressTime = 2 ^ 32 - 100 → currentTime = 50 →
      subU32 (currentTime % U32) s.lastPressTime = 150 ∧
      handleButtonPress gpio currentTime s = { s with printed := s.printed ++ [gpio] }) := by
  have hcm : currentTime % U32 = currentTime := Nat.mod_eq_of_lt hc
  have key : ((subU32 (currentTime % U32) s.lastPressTime : Nat) : Int)
      = ((currentTime : Int) - (s.lastPressTime : Int)) % (2 : Int) ^ 32 := by
    rw [hcm]
    simp only [subU32, U32] at *
    omega
  refine ⟨key, ?_, ?_, ?_⟩
  · intro h
    apply handleButtonPress_of_le
    rw [← key] at h
    exact_mod_cast h
  · intro h
    rw [handleButtonPress_of_gt gpio currentTime s (by rw [← key] at h; exact_mod_cast h)]
    exact hcm
  · intro h1 h2
    have h150 : subU32 (currentTime % U32) s.lastPressTime = 150 := by
      rw [h1, h2]
      decide
    refine ⟨h150, ?_⟩
    apply handleButtonPress_of_le
    rw [h150]
    decide

/-- Instance of C2 at `lastPressTime = 2 ^ 32 - 100`, `currentTime = 50`. -/
theorem C2_elapsed_wraparound_witness :
    wrapState.lastPressTime < U32 ∧ 50 < U32 ∧
    subU32 (50 % U32) wrapState.lastPressTime = 150 ∧
    handleButtonPress BTN_AUX 50 wrapState
      = { wrapState with printed := wrapState.printed ++ [BTN_AUX] } :=
  ⟨by decide, by decide,
    (C2_elapsed_wraparound wrapState BTN_AUX 50 (by decide) (by decide)).2.2.2 rfl rfl⟩

/-- C3. In a state with `pwmActive = true`, whatever the two PWM levels, an accepted
event of the auxiliary button (GPIO 5) sets `pwmActive` to false and both PWM
levels to 0 in that call. -/
theorem C3_pwm_toggle_off_clears_lights (s : State) (now : Nat)
    (hp : s.pwmActive = true)
    (hacc : subU32 (now % U32) s.lastPressTime > 300000) :
    (handleButtonPress BTN_AUX now s).pwmActive = false ∧
    (handleButtonPress BTN_AUX now s).levelR = 0 ∧
    (handleButtonPress BTN_AUX now s).levelB = 0 := by
  rw [handleButtonPress_of_gt BTN_AUX now s hacc]
  simp [hp]

/-- Instance of C3 with both channels lit. -/
theorem C3_pwm_toggle_off_clears_lights_witness :
    litState.pwmActive = true ∧ litState.levelR = 200 ∧ litState.levelB = 100 ∧
    subU32 (400000 % U32) litState.lastPressTime > 300000 ∧
    (handleButtonPress BTN_AUX 400000 litState).pwmActive = false ∧
    (handleButtonPress BTN_AUX 400000 litState).levelR = 0 ∧
    (handleButtonPress BTN_AUX 400000 litState).levelB = 0 :=
  ⟨rfl, rfl, rfl, by decide,
    C3_pwm_toggle_off_clears_lights litState 400000 rfl (by decide)⟩

/-- C9, as stated, fails: with `pwmActive = false` and PWM levels 7 and 9, an
accepted event of the joystick button (GPIO 22) sets both levels to 0. -/
theorem C9_border_toggle_counterexample :
    subU32 (400000 % U32) offLitState.lastPressTime > 300000 ∧
    offLitState.levelR = 7 ∧ offLitState.levelB = 9 ∧
    (handleButtonPress BTN_JOYSTICK 400000 offLitState).levelR = 0 ∧
    (handleButtonPress BTN_JOYSTICK 400000 offLitState).levelB = 0 ∧
    ¬ (∀ (s : State) (now : Nat), subU32 (now % U32) s.lastPressTime > 300000 →
        (handleButtonPress BTN_JOYSTICK now s).borderVisible = !s.borderVisible ∧
        (handleButtonPress BTN_JOYSTICK now s).pwmActive = s.pwmActive ∧
        (handleButtonPress BTN_JOYSTICK now s).levelR = s.levelR ∧
        (handleButtonPress BTN_JOYSTICK now s).levelB = s.levelB) := by
  refine ⟨by decide, rfl, rfl, by decide, by decide, ?_⟩
  intro h
  have h' := (h offLitState 400000 (by decide)).2.2.1
  revert h'
  decide

/-- C9, amended.  An accepted event of the joystick button (GPIO 22) flips
`borderVisible` and leaves `pwmActive` unchanged; it leaves both PWM levels
unchanged when `pwmActive` is true and sets both to 0 when `pwmActive` is false. -/
theorem C9_border_toggle_frame (s : State) (now : Nat)
    (hacc : subU32 (now % U32) s.lastPressTime > 300000) :
    (handleButtonPress BTN_JOYSTICK now s).borderVisible = !s.borderVisible ∧
    (handleButtonPress BTN_JOYSTICK now s).pwmActive = s.pwmActive ∧
    (s.pwmActive = true →
      (handleButtonPress BTN_JOYSTICK now s).levelR = s.levelR ∧
      (handleButtonPress BTN_JOYSTICK now s).levelB = s.levelB) ∧
    (s.pwmActive = false →
      (handleButtonPress BTN_JOYSTICK now s).levelR = 0 ∧
      (handleButtonPress BTN_JOYSTICK now s).levelB = 0) := by
  rw [handleButtonPress_of_gt BTN_JOYSTICK now s hacc]
  refine ⟨by simp, by simp [BTN_JOYSTICK, BTN_AUX], ?_, ?_⟩
  · intro hp
    simp [BTN_JOYSTICK, BTN_AUX, hp]
  · intro hp
    simp [BTN_JOYSTICK, BTN_AUX, hp]

/-- Instance of C9 (amended) with both channels lit and the lights enabled. -/
theorem C9_border_toggle_frame_witness :
    subU32 (400000 % U32) litState.lastPressTime > 300000 ∧ litState.pwmActive = true ∧
    (handleButtonPress BTN_JOYSTICK 400000 litState).borderVisible = true ∧
    (handleButtonPress BTN_JOYSTICK 400000 litState).levelR = 200 ∧
    (handleButtonPress BTN_JOYSTICK 400000 litState).levelB = 100 :=
  ⟨by decide, rfl,
    (C9_border_toggle_frame litState 400000 (by decide)).1,
    ((C9_border_toggle_frame litState 400000 (by decide)).2.2.1 rfl).1,
    ((C9_border_toggle_frame litState 400000 (by decide)).2.2.1 rfl).2⟩

/-! ## Properties of the brightness mapper and the light controller -/

/-- C5, as stated, fails: at sample 2043 the value before the cast is
`5 / 2048 * 255 = 0.62...`, which `adcToPWM` truncates to 0 while the nearest
integer is 1. -/
theorem C5_round_counterexample :
    2043 ≤ 4095 ∧ adcToPWM 2043 = 0 ∧ brightnessSpec 2043 = 1 ∧
    (adcToPWM 2043 : Int) ≠ brightnessSpec 2043 := by
  have h0 : adcToPWM 2043 = 0 := by
    rw [adcToPWM_eq_div 2043 (by decide)]
    decide
  refine ⟨by decide, h0, brightnessSpec_2043, ?_⟩
  rw [h0, brightnessSpec_2043]
  decide

/-- C5, amended.  For every sample in `[0, 4095]`, `adcToPWM` is
`|2048 - adc| / 2048 * 255` rounded down (truncated toward zero), which is the
integer quotient of `255 * |2048 - adc|` by 2048. -/
theorem C5_adcToPWM_truncates (adc : Nat) (h : adc ≤ 4095) :
    (adcToPWM adc : Int) = ⌊(|(2048 : ℚ) - adc| / 2048) * 255⌋ ∧
    adcToPWM adc = 255 * Int.natAbs (2048 - (adc : Int)) / 2048 := by
  have hv : (|(2048 : ℚ) - adc| / 2048) * 255 = adcToPWMValue adc := by
    unfold adcToPWMValue
    rw [Nat.cast_natAbs]
    push_cast
    rfl
  have ht := truncate_adcToPWMValue adc
  unfold truncate at ht
  rw [if_pos (adcToPWMValue_nonneg adc)] at ht
  refine ⟨?_, adcToPWM_eq_div adc h⟩
  rw [hv, ht, adcToPWM_eq_div adc h]

/-- Instance of C5 (amended) at sample 2043. -/
theorem C5_adcToPWM_truncates_witness :
    2043 ≤ 4095 ∧ adcToPWM 2043 = 255 * Int.natAbs (2048 - ((2043 : Nat) : Int)) / 2048 :=
  ⟨by decide, (C5_adcToPWM_truncates 2043 (by decide)).2⟩

/-- C6. For every sample in `[0, 4095]` the value that `adcToPWM` computes before
the cast lies in `[0, 255]`, the cast returns its truncation unchanged (no
wrap), and the result is at most 255; `adcToPWM 2048 = 0`. -/
theorem C6_adcToPWM_range (adc : Nat) (h : adc ≤ 4095) :
    0 ≤ adcToPWMValue adc ∧ adcToPWMValue adc ≤ 255 ∧
    (adcToPWM adc : Int) = truncate (adcToPWMValue adc) ∧
    adcToPWM adc ≤ 255 ∧ adcToPWM 2048 = 0 := by
  have hk : Int.natAbs (2048 - (adc : Int)) ≤ 2048 := by omega
  refine ⟨adcToPWMValue_nonneg adc, ?_, ?_, ?_, ?_⟩
  · unfold adcToPWMValue
    have hk' : ((Int.natAbs (2048 - (adc : Int)) : Nat) : ℚ) ≤ 2048 := by exact_mod_cast hk
    linarith
  · rw [truncate_adcToPWMValue, adcToPWM_eq_div adc h]
  · rw [adcToPWM_eq_div adc h]
    omega
  · rw [adcToPWM_eq_div 2048 (by decide)]
    decide

/-- Instance of C6 at the largest 12-bit sample. -/
theorem C6_adcToPWM_range_witness :
    4095 ≤ 4095 ∧ adcToPWM 4095 ≤ 255 ∧ adcToPWM 2048 = 0 :=
  ⟨by decide, (C6_adcToPWM_range 4095 (by decide)).2.2.2.1,
    (C6_adcToPWM_range 4095 (by decide)).2.2.2.2⟩

/-- C4 fails on the code.  With the lights enabled, `adcX = 0` and `adcY = 2001`,
the channel computed from `adcY` (`LED_R`) keeps level 5 although `adcY` lies in
the dead zone; with `adcX = 2001` and `adcY = 0` the channel computed from `adcX`
(`LED_B`) keeps level 5.  The dead-zone tests of `updateLEDs` clear the channel
of the other axis. -/
theorem C4_dead_zone_crossed :
    initialState.pwmActive = true ∧
    (2000 < 2001 ∧ 2001 < 2100) ∧
    (updateLEDs 0 2001 initialState).levelR = 5 ∧
    (updateLEDs 0 2001 initialState).levelB = 0 ∧
    (updateLEDs 2001 0 initialState).levelB = 5 ∧
    (updateLEDs 2001 0 initialState).levelR = 0 := by
  have h1 : adcToPWM 2001 = 5 := by
    rw [adcToPWM_eq_div 2001 (by decide)]
    decide
  simp [updateLEDs, initialState, h1]

/-! ## Properties of the cursor mapper -/

/-- C7. For samples in `[0, 4095]` the position written by `updateCursorPosition`
satisfies `0 ≤ x ≤ 56` and `0 ≤ y ≤ 120`, whatever the rounding of the
single-precision operations.  The bounds come from the two clamps alone. -/
theorem C7_cursor_bounds (rnd : ℚ → ℚ) (adcX adcY : Nat)
    (_hx : adcX ≤ 4095) (_hy : adcY ≤ 4095) :
    0 ≤ (updateCursorPosition rnd adcX adcY).1 ∧ (updateCursorPosition rnd adcX adcY).1 ≤ 56 ∧
    0 ≤ (updateCursorPosition rnd adcX adcY).2 ∧ (updateCursorPosition rnd adcX adcY).2 ≤ 120 := by
  simp only [updateCursorPosition]
  refine ⟨?_, ?_, ?_, ?_⟩ <;> split_ifs <;> linarith

/-- Instance of C7 at the centre sample with exact arithmetic. -/
theorem C7_cursor_bounds_witness :
    2048 ≤ 4095 ∧
    0 ≤ (updateCursorPosition id 2048 2048).1 ∧ (updateCursorPosition id 2048 2048).1 ≤ 56 ∧
    0 ≤ (updateCursorPosition id 2048 2048).2 ∧ (updateCursorPosition id 2048 2048).2 ≤ 120 :=
  ⟨by decide, C7_cursor_bounds id 2048 2048 (by decide) (by decide)⟩

/-- C8. With exact arithmetic, for samples in `[0, 4095]`, `updateCursorPosition`
returns `x = clamp (64 - (adcX/4095)*64, 0, 56)` and
`y = clamp ((adcY/4095)*128, 0, 120)`; `x` does not increase when `adcX` grows
(the X axis is inverted); samples `(0, 0)` give `(56, 0)` and samples
`(4095, 4095)` give `(0, 120)`. -/
theorem C8_cursor_formula (adcX adcY : Nat) (_hx : adcX ≤ 4095) (_hy : adcY ≤ 4095) :
    updateCursorPosition id adcX adcY = cursorMapperSpec adcX adcY ∧
    (∀ adcX2 : Nat, adcX ≤ adcX2 →
      (updateCursorPosition id adcX2 adcY).1 ≤ (updateCursorPosition id adcX adcY).1) ∧
    updateCursorPosition id 0 0 = (56, 0) ∧
    updateCursorPosition id 4095 4095 = (0, 120) := by
  have hspec : ∀ a b : Nat, updateCursorPosition id a b = cursorMapperSpec a b := by
    intro a b
    simp only [updateCursorPosition, cursorMapperSpec, clamp, id]
    ext
    · simp only
      split_ifs with h1 h2
      · rw [min_eq_left (by linarith), max_eq_left (by linarith)]
      · rw [min_eq_right (by linarith), max_eq_right (by norm_num)]
      · rw [min_eq_left (by linarith), max_eq_right (by linarith)]
    · simp only
      split_ifs with h1 h2
      · rw [min_eq_left (by linarith), max_eq_left (by linarith)]
      · rw [min_eq_right (by linarith), max_eq_right (by norm_num)]
      · rw [min_eq_left (by linarith), max_eq_right (by linarith)]
  refine ⟨hspec adcX adcY, ?_, ?_, ?_⟩
  · intro adcX2 h
    rw [hspec, hspec]
    simp only [cursorMapperSpec, clamp]
    have hc : ((adcX : ℚ)) ≤ adcX2 := by exact_mod_cast h
    apply max_le_max le_rfl
    apply min_le_min _ le_rfl
    have : (adcX : ℚ) / 4095 ≤ (adcX2 : ℚ) / 4095 := by
      apply div_le_div_of_nonneg_right hc (by norm_num)
    linarith
  · rw [hspec]
    norm_num [cursorMapperSpec, clamp]
  · rw [hspec]
    norm_num [cursorMapperSpec, clamp]

/-- Instance of C8 at the centre sample. -/
theorem C8_cursor_formula_witness :
    2048 ≤ 4095 ∧ updateCursorPosition id 2048 2048 = cursorMapperSpec 2048 2048 :=
  ⟨by decide, (C8_cursor_formula 2048 2048 (by decide) (by decide)).1⟩

/-! ## Invariant of the runs -/

/-- C10. Lights-off invariant.  In every state reached from the initial state by
a sequence of `handleButtonPress` and `updateLEDs` calls, each taken as one step,
`pwmActive = false` implies that both PWM levels are 0. -/
theorem C10_lights_off_invariant (calls : List Call) :
    (run calls initialState).pwmActive = false →
      (run calls initialState).levelR = 0 ∧ (run calls initialState).levelB = 0 :=
  lightsOff_run calls initialState (fun h => by simp [initialState] at h)

/-- Instance of C10: lighting both channels and then switching the lights off. -/
theorem C10_lights_off_invariant_witness :
    (run [Call.leds 0 0] initialState).levelR = 255 ∧
    (run [Call.leds 0 0, Call.button BTN_AUX 400000] initialState).pwmActive = false ∧
    (run [Call.leds 0 0, Call.button BTN_AUX 400000] initialState).levelR = 0 ∧
    (run [Call.leds 0 0, Call.button BTN_AUX 400000] initialState).levelB = 0 := by
  have h0 : adcToPWM 0 = 255 := by
    rw [adcToPWM_eq_div 0 (by decide)]
    decide
  have hp : (run [Call.leds 0 0, Call.button BTN_AUX 400000] initialState).pwmActive = false := by
    simp [run, Call.apply, updateLEDs, handleButtonPress, initialState, h0, subU32, U32,
      BTN_AUX, BTN_JOYSTICK]
  exact ⟨by simp [run, Call.apply, updateLEDs, initialState, h0], hp,
    C10_lights_off_invariant [Call.leds 0 0, Call.button BTN_AUX 400000] hp⟩

end Analogico
